import Mathlib

/-!
Verification of the dialogue subsystem of the Music-Detector repository
(`src/music_game/llm/dialogue.py`): a shallow embedding of the prompt
builder `_build_prompt` and of `OllamaClient` (construction and the
response/error interpretation in `generate`), together with theorems
settling the specified contract.

Strings are modelled with Lean `String`; the relevant Python string
operations (`str.join`, `str.title`, `str.strip`, `str.rstrip`) are
embedded explicitly below.  JSON response bodies are modelled as
association lists from field name to string value (the fields the client
reads are text fields).  The single HTTP side effect of `generate` is
modelled by an explicit `HttpOutcome` parameter: either a response with
a status code and parsed body, or a connection-level failure
(`httpx.RequestError`).
-/

/-- `DialogueTurn` dataclass: a single utterance with a speaker role. -/
structure DialogueTurn where
  role : String
  content : String
deriving Repr, DecidableEq

/-- Python `sep.join(pieces)`: empty string on an empty list, the sole
element on a singleton, otherwise the pieces interleaved with `sep`. -/
def joinSep (sep : String) : List String → String
  | [] => ""
  | [a] => a
  | a :: b :: t => a ++ sep ++ joinSep sep (b :: t)

/-- One step of Python `str.title()`: the Boolean records whether the
previous character was alphabetic (cased); an alphabetic character is
uppercased after a non-cased character and lowercased otherwise. -/
def titleAux : Bool → List Char → List Char
  | _, [] => []
  | prevCased, c :: t =>
    if c.isAlpha then
      (if prevCased then c.toLower else c.toUpper) :: titleAux true t
    else
      c :: titleAux false t

/-- Python `str.title()` (ASCII model, matching the roles used here). -/
def pyTitle (s : String) : String := String.mk (titleAux false s.data)

/-- Python truthiness of an optional string: `None` and `""` are falsy. -/
def optTruthy : Option String → Bool
  | none => false
  | some s => s != ""

/-- Rendering of an optional string inside a Python f-string:
`None` renders literally as `"None"`, a string renders as itself. -/
def pyShowOpt : Option String → String
  | none => "None"
  | some s => s

/-- `f"{turn.role.title()}: {turn.content}"` — one rendered history line. -/
def renderTurn (t : DialogueTurn) : String := pyTitle t.role ++ ": " ++ t.content

/-- The `dialogue_context` list of `_build_prompt`: one line per history
turn, in sequence order (`if history:` then append per turn; an absent or
empty history contributes no lines). -/
def dialogueContext (history : Option (List DialogueTurn)) : List String :=
  match history with
  | none => []
  | some hs => hs.map renderTurn

/-- `f"- {key}: {value}"` — one rendered descriptor line; the value is
modelled by its rendered text. -/
def renderDescriptor (kv : String × String) : String := "- " ++ kv.1 ++ ": " ++ kv.2

/-- The `descriptor_lines` list of `_build_prompt`: one bulleted line per
descriptor entry, in mapping insertion order (`if descriptors:` then
append per entry). -/
def descriptorLines (descriptors : Option (List (String × String))) : List String :=
  match descriptors with
  | none => []
  | some ds => ds.map renderDescriptor

/-- `descriptor_block = "\n".join(descriptor_lines) if descriptor_lines
else "- No detailed descriptors"`. -/
def descriptorBlock (descriptors : Option (List (String × String))) : String :=
  if descriptorLines descriptors = [] then "- No detailed descriptors"
  else joinSep "\n" (descriptorLines descriptors)

/-- `context_block = "\n".join(dialogue_context)`. -/
def contextBlock (history : Option (List DialogueTurn)) : String :=
  joinSep "\n" (dialogueContext history)

/-- `key_info = f"Detected key: {key_label}.\n" if key_label else ""`. -/
def keyInfo (key_label : Option String) : String :=
  if optTruthy key_label then "Detected key: " ++ pyShowOpt key_label ++ ".\n" else ""

/-- `_build_prompt` of `dialogue.py`, transliterated: the fixed template
with the interpolated blocks.  `chord_label` is accepted but never
interpolated, exactly as in the source. -/
def build_prompt (emotion_label chord_label : String) (key_label : Option String)
    (descriptors : Option (List (String × String)))
    (history : Option (List DialogueTurn)) : String :=
  "You are the in-game for an interactive music-driven emotion responder, analyses all chord progressions and given the response of the whole song.\n"
  ++ "Craft a reacting to the player's latest key.\n"
  ++ ("Detected key: " ++ pyShowOpt key_label ++ ".\n")
  ++ keyInfo key_label
  ++ ("Predicted emotion: " ++ emotion_label ++ ".\n")
  ++ "Audio descriptors:\n"
  ++ (descriptorBlock descriptors ++ "\n")
  ++ "Previous dialogue (most recent last):\n"
  ++ (contextBlock history ++ "\n")
  ++ "Respond with empathetic, emotionally supportive words, as if from a deeply attentive partner. (min 2 sentences)."

/-- The `Detected key: <label>.` line of the template. -/
def keyLine (label : String) : String := "Detected key: " ++ label ++ "."

/-- The presence-gated key line of the template (rendered by `key_info`):
one line when `key_label` is truthy, no line otherwise. -/
def keySegment (key_label : Option String) : List String :=
  if optTruthy key_label then [keyLine (pyShowOpt key_label)] else []

/-- The lines contributed by the descriptor block: the rendered entries,
or the single placeholder line when there are none. -/
def descSegment (descriptors : Option (List (String × String))) : List String :=
  if descriptorLines descriptors = [] then ["- No detailed descriptors"]
  else descriptorLines descriptors

/-- The lines contributed by the `{context_block}\n` slot of the template:
the rendered history lines, or one empty line when there are none (the
empty context block followed by the template's newline). -/
def ctxSegment (history : Option (List DialogueTurn)) : List String :=
  if dialogueContext history = [] then [""] else dialogueContext history

/-- The rendered prompt, as the list of `\n`-separated pieces the template
produces: fixed lines, unconditional key line, gated key line, emotion
line, descriptor block, history block, closing line. -/
def promptLines (emotion_label chord_label : String) (key_label : Option String)
    (descriptors : Option (List (String × String)))
    (history : Option (List DialogueTurn)) : List String :=
  ["You are the in-game for an interactive music-driven emotion responder, analyses all chord progressions and given the response of the whole song.",
   "Craft a reacting to the player's latest key.",
   keyLine (pyShowOpt key_label)]
  ++ keySegment key_label
  ++ ["Predicted emotion: " ++ emotion_label ++ ".", "Audio descriptors:"]
  ++ descSegment descriptors
  ++ ["Previous dialogue (most recent last):"]
  ++ ctxSegment history
  ++ ["Respond with empathetic, emotionally supportive words, as if from a deeply attentive partner. (min 2 sentences)."]

/-- Python `s.rstrip("/")`: remove every trailing `'/'` character. -/
def pyRstripSlash (s : String) : String :=
  String.mk ((s.data.reverse.dropWhile (fun c => c == '/')).reverse)

/-- `OllamaClient` state after `__init__`: the three configuration values.
The float `timeout` is modelled as a rational; it does not influence any
behaviour modelled here beyond being stored. -/
structure OllamaClient where
  base_url : String
  model : String
  timeout : Rat
deriving Repr, DecidableEq

/-- `OllamaClient.__init__`: stores `base_url.rstrip("/")`, the model
identifier and the timeout. -/
def OllamaClient.init (base_url model : String) (timeout : Rat) : OllamaClient :=
  { base_url := pyRstripSlash base_url, model := model, timeout := timeout }

/-- The URL `generate` posts to: `f"{self.base_url}/api/generate"`. -/
def requestTarget (client : OllamaClient) : String :=
  client.base_url ++ "/api/generate"

/-- The JSON payload generate posts: `{model, prompt, stream: False}`. -/
structure GeneratePayload where
  model : String
  prompt : String
  stream : Bool
deriving Repr, DecidableEq

/-- The payload built at the start of `OllamaClient.generate`. -/
def generatePayload (client : OllamaClient) (emotion_label chord_label : String)
    (key_label : Option String) (descriptors : Option (List (String × String)))
    (history : Option (List DialogueTurn)) : GeneratePayload :=
  { model := client.model,
    prompt := build_prompt emotion_label chord_label key_label descriptors history,
    stream := false }

/-- Outcome of the single HTTP POST inside `generate`: either a response
with a status code and a parsed JSON body (modelled as an association
list of text fields), or a connection-level failure — the
`httpx.RequestError` family: service unreachable, timeout, DNS failure. -/
inductive HttpOutcome where
  | response (status : Nat) (body : List (String × String))
  | connectionError
deriving Repr, DecidableEq

/-- The failure `generate` can propagate: the re-raised
`httpx.HTTPStatusError` carrying the response status. -/
inductive GenError where
  | httpStatusError (status : Nat)
deriving Repr, DecidableEq

/-- Python `data.get(k)` on a JSON object: the value of the (unique) field
named `k`, or `None` when absent. -/
def pyGet (body : List (String × String)) (k : String) : Option String :=
  (body.find? (fun kv => kv.1 == k)).map (fun kv => kv.2)

/-- Python `x or y` where `x` is `data.get(...)`: `None` and the empty
string are falsy, so the right operand is used for both. -/
def pyOrStr (x : Option String) (y : String) : String :=
  match x with
  | none => y
  | some s => if s = "" then y else s

/-- `data.get("response") or data.get("text") or "I need more data to
respond."` — the content extraction of `generate` on a 2xx response. -/
def extractContent (body : List (String × String)) : String :=
  pyOrStr (pyGet body "response") (pyOrStr (pyGet body "text") "I need more data to respond.")

/-- The characters Python `str.strip()` removes. -/
def pyIsSpace (c : Char) : Bool :=
  c == ' ' || c == '\t' || c == '\n' || c == '\r' || c == '\x0b' || c == '\x0c'

/-- Python `s.strip()`: remove leading and trailing whitespace. -/
def pyStrip (s : String) : String :=
  String.mk (((s.data.dropWhile pyIsSpace).reverse.dropWhile pyIsSpace).reverse)

/-- `httpx` success statuses: `raise_for_status` raises `HTTPStatusError`
exactly when the status is not 2xx. -/
def httpSuccess (status : Nat) : Prop := 200 ≤ status ∧ status < 300

instance (status : Nat) : Decidable (httpSuccess status) := by
  unfold httpSuccess; infer_instance

/-- `OllamaClient.generate`, response interpretation: on a 2xx response
the extracted, stripped content becomes an assistant turn; on a 404 the
fixed model-not-found message becomes an assistant turn; any other status
re-raises the `HTTPStatusError`; a connection-level failure becomes the
fixed unreachable-service assistant turn.  The network side effect is
abstracted into the `outcome` argument. -/
def OllamaClient.generate (client : OllamaClient) (outcome : HttpOutcome) :
    Except GenError DialogueTurn :=
  match outcome with
  | .connectionError =>
    .ok { role := "assistant",
          content := "Error: Could not connect to Ollama. Is the service running?" }
  | .response status body =>
    if httpSuccess status then
      .ok { role := "assistant", content := pyStrip (extractContent body) }
    else if status = 404 then
      .ok { role := "assistant",
            content := "Error: Model '" ++ client.model ++
              ("' not found. Please ensure it is pulled in Ollama (e.g., `ollama pull " ++
                client.model ++ "`).") }
    else
      .error (.httpStatusError status)

/-- The lines of the rendered prompt other than the key line(s): used to
state that the key line occurs exactly from its two template slots. -/
def nonKeyLines (emotion_label : String) (descriptors : Option (List (String × String)))
    (history : Option (List DialogueTurn)) : List String :=
  ["You are the in-game for an interactive music-driven emotion responder, analyses all chord progressions and given the response of the whole song.",
   "Craft a reacting to the player's latest key.",
   "Predicted emotion: " ++ emotion_label ++ ".", "Audio descriptors:"]
  ++ descSegment descriptors
  ++ ["Previous dialogue (most recent last):"]
  ++ ctxSegment history
  ++ ["Respond with empathetic, emotionally supportive words, as if from a deeply attentive partner. (min 2 sentences)."]

theorem joinSep_singleton (sep a : String) : joinSep sep [a] = a := rfl

theorem joinSep_cons_of_ne_nil (sep a : String) (l : List String) (hl : l ≠ []) :
    joinSep sep (a :: l) = a ++ (sep ++ joinSep sep l) := by
  cases l with
  | nil => exact absurd rfl hl
  | cons b t => simp [joinSep, String.append_assoc]

theorem joinSep_append_of_ne_nil (sep : String) (xs ys : List String)
    (hx : xs ≠ []) (hy : ys ≠ []) :
    joinSep sep (xs ++ ys) = joinSep sep xs ++ (sep ++ joinSep sep ys) := by
  induction xs with
  | nil => exact absurd rfl hx
  | cons a t ih =>
    cases t with
    | nil =>
      rw [List.singleton_append, joinSep_cons_of_ne_nil sep a ys hy]
      simp [joinSep]
    | cons b u =>
      rw [List.cons_append,
        joinSep_cons_of_ne_nil sep a ((b :: u) ++ ys) (by simp),
        ih (by simp), joinSep_cons_of_ne_nil sep a (b :: u) (by simp)]
      simp [String.append_assoc]

theorem descSegment_ne_nil (d : Option (List (String × String))) : descSegment d ≠ [] := by
  unfold descSegment
  split <;> simp_all

theorem ctxSegment_ne_nil (h : Option (List DialogueTurn)) : ctxSegment h ≠ [] := by
  unfold ctxSegment
  split <;> simp_all

theorem descriptorBlock_eq_joinSep (d : Option (List (String × String))) :
    descriptorBlock d = joinSep "\n" (descSegment d) := by
  unfold descriptorBlock descSegment
  split <;> simp [joinSep]

theorem contextBlock_eq_joinSep (h : Option (List DialogueTurn)) :
    contextBlock h = joinSep "\n" (ctxSegment h) := by
  unfold contextBlock ctxSegment
  split <;> simp_all [joinSep]

/-- Bridging: `build_prompt` is exactly the `\n`-join of `promptLines`. -/
theorem build_prompt_eq_joinSep (e c : String) (k : Option String)
    (d : Option (List (String × String))) (h : Option (List DialogueTurn)) :
    build_prompt e c k d h = joinSep "\n" (promptLines e c k d h) := by
  have hd := descSegment_ne_nil d
  have hc := ctxSegment_ne_nil h
  have s1 : ("You are the in-game for an interactive music-driven emotion responder, analyses all chord progressions and given the response of the whole song.\n" : String)
      = "You are the in-game for an interactive music-driven emotion responder, analyses all chord progressions and given the response of the whole song." ++ "\n" := rfl
  have s2 : ("Craft a reacting to the player's latest key.\n" : String)
      = "Craft a reacting to the player's latest key." ++ "\n" := rfl
  have s3 : (".\n" : String) = "." ++ "\n" := rfl
  have s4 : ("Audio descriptors:\n" : String) = "Audio descriptors:" ++ "\n" := rfl
  have s5 : ("Previous dialogue (most recent last):\n" : String)
      = "Previous dialogue (most recent last):" ++ "\n" := rfl
  unfold build_prompt promptLines
  cases hk : optTruthy k with
  | false =>
    rw [show keyInfo k = "" from by simp [keyInfo, hk],
        show keySegment k = ([] : List String) from by simp [keySegment, hk]]
    simp only [List.cons_append, List.nil_append, List.append_assoc]
    rw [joinSep_cons_of_ne_nil, joinSep_cons_of_ne_nil, joinSep_cons_of_ne_nil,
        joinSep_cons_of_ne_nil, joinSep_cons_of_ne_nil,
        joinSep_append_of_ne_nil _ _ _ hd, joinSep_cons_of_ne_nil,
        joinSep_append_of_ne_nil _ _ _ hc,
        ← descriptorBlock_eq_joinSep, ← contextBlock_eq_joinSep]
    · simp only [keyLine, joinSep_singleton, s1, s2, s3, s4, s5, String.append_assoc,
        String.append_empty, String.empty_append]
    all_goals simp [hd, hc, List.append_eq_nil]
  | true =>
    rw [show keyInfo k = "Detected key: " ++ pyShowOpt k ++ ".\n" from by simp [keyInfo, hk],
        show keySegment k = [keyLine (pyShowOpt k)] from by simp [keySegment, hk]]
    simp only [List.cons_append, List.nil_append, List.append_assoc]
    rw [joinSep_cons_of_ne_nil, joinSep_cons_of_ne_nil, joinSep_cons_of_ne_nil,
        joinSep_cons_of_ne_nil, joinSep_cons_of_ne_nil, joinSep_cons_of_ne_nil,
        joinSep_append_of_ne_nil _ _ _ hd, joinSep_cons_of_ne_nil,
        joinSep_append_of_ne_nil _ _ _ hc,
        ← descriptorBlock_eq_joinSep, ← contextBlock_eq_joinSep]
    · simp only [keyLine, joinSep_singleton, s1, s2, s3, s4, s5, String.append_assoc,
        String.append_empty, String.empty_append]
    all_goals simp [hd, hc, List.append_eq_nil]

theorem dropWhile_head?_not (p : Char → Bool) (l : List Char) (a : Char)
    (h : (l.dropWhile p).head? = some a) : p a = false := by
  induction l with
  | nil => simp [List.dropWhile] at h
  | cons c t ih =>
    rw [List.dropWhile_cons] at h
    by_cases hc : p c = true
    · rw [if_pos hc] at h
      exact ih h
    · rw [if_neg hc] at h
      simp at h
      simp [Bool.not_eq_true] at hc
      rw [← h]
      exact hc

/-- C8: the stored base address never ends in a path separator, and the
configurations with and without a trailing separator produce an identical
request target when the `/api/generate` suffix is appended. -/
theorem C8_base_url_normalized (b m : String) (t : Rat) :
    ((OllamaClient.init b m t).base_url).data.getLast? ≠ some '/'
    ∧ requestTarget (OllamaClient.init "http://host:1234/" m t)
        = requestTarget (OllamaClient.init "http://host:1234" m t) := by
  constructor
  · intro hEq
    have hEq' : (((b.data.reverse.dropWhile (fun c => c == '/')).reverse) : List Char).getLast? = some '/' := hEq
    rw [List.getLast?_reverse] at hEq'
    have := dropWhile_head?_not _ _ _ hEq'
    simp at this
  · show pyRstripSlash "http://host:1234/" ++ "/api/generate" = pyRstripSlash "http://host:1234" ++ "/api/generate"
    rw [show pyRstripSlash "http://host:1234/" = pyRstripSlash "http://host:1234" from by decide]

/-- Witness for C8 at a concrete base address (the conclusion contains
negations; this instantiates them at evaluable inputs). -/
theorem C8_witness :
    ((OllamaClient.init "http://host:1234/" "llama3" 30).base_url).data.getLast? ≠ some '/'
    ∧ requestTarget (OllamaClient.init "http://host:1234/" "llama3" 30)
        = requestTarget (OllamaClient.init "http://host:1234" "llama3" 30) :=
  C8_base_url_normalized "http://host:1234/" "llama3" 30


/-- C3: when a connection-level failure prevents obtaining any HTTP
response, `generate` returns a `DialogueTurn` with role `"assistant"` and
the fixed unreachable-service message, propagating no failure. -/
theorem C3_connection_failure (client : OllamaClient) :
    client.generate .connectionError
      = .ok { role := "assistant",
              content := "Error: Could not connect to Ollama. Is the service running?" } := rfl

/-- C1: when the HTTP request yields a 404 response, `generate` returns a
`DialogueTurn` with role `"assistant"` whose content names the configured
model identifier, and propagates no failure (the result is `ok`). -/
theorem C1_not_found (client : OllamaClient) (body : List (String × String)) :
    ∃ pre suf : String,
      client.generate (.response 404 body)
        = .ok { role := "assistant", content := pre ++ client.model ++ suf } := by
  refine ⟨"Error: Model '",
    "' not found. Please ensure it is pulled in Ollama (e.g., `ollama pull " ++ client.model ++ "`).", ?_⟩
  simp [OllamaClient.generate, httpSuccess]

/-- C2: when the HTTP request yields a non-2xx status other than 404
(e.g. 500), `generate` propagates the `HTTPStatusError` as a failure and
does not convert it into a `DialogueTurn`. -/
theorem C2_other_error (client : OllamaClient) (body : List (String × String)) (status : Nat)
    (h1 : ¬ httpSuccess status) (h2 : status ≠ 404) :
    client.generate (.response status body) = .error (.httpStatusError status) := by
  simp only [OllamaClient.generate]
  rw [if_neg h1, if_neg h2]

/-- Witness for C2 at status 500. -/
theorem C2_witness :
    (OllamaClient.init "http://host:1234" "llama3" 30).generate (.response 500 [])
      = .error (.httpStatusError 500) :=
  C2_other_error (OllamaClient.init "http://host:1234" "llama3" 30) [] 500
    (by decide) (by decide)

/-- C4: on a 2xx response, `generate` returns an assistant turn whose
content is the extracted text, whitespace-trimmed; extraction checks
`response` first, falls back to `text`, and substitutes the fixed
insufficient-data line when neither is present; in particular the body
`{"response": "Hello there."}` yields content `"Hello there."`. -/
theorem C4_success (client : OllamaClient) (body : List (String × String))
    (status : Nat) (s : String) (hs1 : 200 ≤ status) (hs2 : status < 300) :
    client.generate (.response status body)
        = .ok { role := "assistant", content := pyStrip (extractContent body) }
    ∧ (pyGet body "response" = some s → s ≠ "" → extractContent body = s)
    ∧ (pyGet body "response" = none → pyGet body "text" = some s → s ≠ "" →
        extractContent body = s)
    ∧ (pyGet body "response" = none → pyGet body "text" = none →
        extractContent body = "I need more data to respond.")
    ∧ client.generate (.response 200 [("response", "Hello there.")])
        = .ok { role := "assistant", content := "Hello there." } := by
  refine ⟨?_, ?_, ?_, ?_, ?_⟩
  · simp only [OllamaClient.generate]
    rw [if_pos ⟨hs1, hs2⟩]
  · intro hr hne
    simp [extractContent, pyOrStr, hr, hne]
  · intro hr ht hne
    simp [extractContent, pyOrStr, hr, ht, hne]
  · intro hr ht
    simp [extractContent, pyOrStr, hr, ht]
  · simp only [OllamaClient.generate]
    rw [if_pos (show httpSuccess 200 from by constructor <;> norm_num)]
    rfl

/-- Witness for C4 at the concrete body of the claim. -/
theorem C4_witness :
    (OllamaClient.init "http://host:1234" "llama3" 30).generate
        (.response 200 [("response", "Hello there.")])
      = .ok { role := "assistant", content := "Hello there." } :=
  (C4_success (OllamaClient.init "http://host:1234" "llama3" 30)
    [("response", "Hello there.")] 200 "Hello there." (by decide) (by decide)).1.trans
    rfl

/-- C10: result-field extraction keys on truthiness, not presence: a
`response` field equal to the empty string behaves as if absent (falling
back to `text`, then the fixed insufficient-data line), and a `response`
value consisting only of whitespace yields a turn whose content is the
empty string after trimming. -/
theorem C10_truthiness (client : OllamaClient) (body : List (String × String)) (s t : String) :
    (pyGet body "response" = some "" → pyGet body "text" = some t → t ≠ "" →
      extractContent body = t)
    ∧ (pyGet body "response" = some "" → pyGet body "text" = none →
        extractContent body = "I need more data to respond.")
    ∧ (pyGet body "response" = some "" → pyGet body "text" = some "" →
        extractContent body = "I need more data to respond.")
    ∧ (pyGet body "response" = some s → s ≠ "" → (∀ ch ∈ s.data, pyIsSpace ch = true) →
        client.generate (.response 200 body) = .ok { role := "assistant", content := "" }) := by
  refine ⟨?_, ?_, ?_, ?_⟩
  · intro hr ht hne
    simp [extractContent, pyOrStr, hr, ht, hne]
  · intro hr ht
    simp [extractContent, pyOrStr, hr, ht]
  · intro hr ht
    simp [extractContent, pyOrStr, hr, ht]
  · intro hr hne hws
    simp only [OllamaClient.generate]
    rw [if_pos (by constructor <;> norm_num : httpSuccess 200)]
    have hx : extractContent body = s := by simp [extractContent, pyOrStr, hr, hne]
    rw [hx]
    have hdrop : s.data.dropWhile pyIsSpace = [] := List.dropWhile_eq_nil_iff.mpr hws
    show (Except.ok ⟨"assistant", pyStrip s⟩ : Except GenError DialogueTurn) = _
    rw [pyStrip, hdrop]
    rfl

/-- Witness for C10: empty `response` falls back to `text`; a
whitespace-only `response` yields empty content. -/
theorem C10_witness :
    extractContent [("response", ""), ("text", "hi")] = "hi"
    ∧ (OllamaClient.init "http://host:1234" "llama3" 30).generate
        (.response 200 [("response", "   ")])
      = .ok { role := "assistant", content := "" } := by
  constructor
  · exact (C10_truthiness (OllamaClient.init "http://host:1234" "llama3" 30)
      [("response", ""), ("text", "hi")] "x" "hi").1 (by decide) (by decide) (by decide)
  · exact (C10_truthiness (OllamaClient.init "http://host:1234" "llama3" 30)
      [("response", "   ")] "   " "t").2.2.2 (by decide) (by decide) (by decide)

theorem str_data_append (s t : String) : (s ++ t).data = s.data ++ t.data := rfl

theorem build_prompt_ne_empty (e c : String) (k : Option String)
    (d : Option (List (String × String))) (hist : Option (List DialogueTurn)) :
    build_prompt e c k d hist ≠ "" := by
  intro hEq
  have hdata := congrArg String.data hEq
  have h0 : ("" : String).data = [] := rfl
  rw [h0] at hdata
  simp only [build_prompt, str_data_append, List.append_eq_nil] at hdata
  exact absurd hdata.1.1.1.1.1.1.1.1.1 (by decide)

/-- C9: `build_prompt` is deterministic — identical inputs give equal
strings — and its output is always non-empty. -/
theorem C9_deterministic_nonempty (e c : String) (k : Option String)
    (d : Option (List (String × String))) (hist : Option (List DialogueTurn))
    (e' c' : String) (k' : Option String) (d' : Option (List (String × String)))
    (hist' : Option (List DialogueTurn))
    (h1 : e = e') (h2 : c = c') (h3 : k = k') (h4 : d = d') (h5 : hist = hist') :
    build_prompt e c k d hist = build_prompt e' c' k' d' hist'
    ∧ build_prompt e c k d hist ≠ "" := by
  subst h1 h2 h3 h4 h5
  exact ⟨rfl, build_prompt_ne_empty e c k d hist⟩

/-- Witness for C9 at concrete inputs. -/
theorem C9_witness :
    build_prompt "happy" "C" (some "C major") none none
      = build_prompt "happy" "C" (some "C major") none none
    ∧ build_prompt "happy" "C" (some "C major") none none ≠ "" :=
  C9_deterministic_nonempty "happy" "C" (some "C major") none none
    "happy" "C" (some "C major") none none rfl rfl rfl rfl rfl

/-- C6: each descriptor entry is rendered as exactly one bulleted
`- name: value` line, in insertion order; an empty mapping and an absent
mapping render identically, as the single literal placeholder line. -/
theorem C6_descriptors (e c : String) (k : Option String)
    (h : Option (List DialogueTurn)) (ds : List (String × String)) :
    descriptorLines (some ds) = ds.map renderDescriptor
    ∧ descriptorLines none = []
    ∧ build_prompt e c k (some []) h = build_prompt e c k none h
    ∧ descriptorBlock none = "- No detailed descriptors"
    ∧ descriptorBlock (some []) = "- No detailed descriptors"
    ∧ ∃ pre post : List String,
        promptLines e c k (some ds) h = pre ++ descSegment (some ds) ++ post := by
  refine ⟨rfl, rfl, rfl, rfl, rfl,
    ⟨["You are the in-game for an interactive music-driven emotion responder, analyses all chord progressions and given the response of the whole song.",
      "Craft a reacting to the player's latest key.",
      keyLine (pyShowOpt k)] ++ keySegment k
      ++ ["Predicted emotion: " ++ e ++ ".", "Audio descriptors:"],
     ["Previous dialogue (most recent last):"] ++ ctxSegment h
      ++ ["Respond with empathetic, emotionally supportive words, as if from a deeply attentive partner. (min 2 sentences)."], ?_⟩⟩
  simp [promptLines, List.append_assoc]

/-- C7: the previous-dialogue block has one `<Role, title-cased>:
<content>` line per history turn, in sequence order, with no turn
reordered, merged or dropped; an empty or absent history renders the
context block as empty text (zero lines), not a placeholder. -/
theorem C7_history (e c : String) (k : Option String)
    (d : Option (List (String × String))) (ts : List DialogueTurn) (t : DialogueTurn) :
    dialogueContext (some ts) = ts.map renderTurn
    ∧ renderTurn t = pyTitle t.role ++ ": " ++ t.content
    ∧ dialogueContext none = []
    ∧ contextBlock none = ""
    ∧ contextBlock (some []) = ""
    ∧ build_prompt e c k d none = build_prompt e c k d (some [])
    ∧ (∃ pre post : List String,
        promptLines e c k d (some ts) = pre ++ ctxSegment (some ts) ++ post)
    ∧ (ts ≠ [] → ctxSegment (some ts) = ts.map renderTurn) := by
  refine ⟨rfl, rfl, rfl, rfl, rfl, rfl,
    ⟨["You are the in-game for an interactive music-driven emotion responder, analyses all chord progressions and given the response of the whole song.",
      "Craft a reacting to the player's latest key.",
      keyLine (pyShowOpt k)] ++ keySegment k
      ++ ["Predicted emotion: " ++ e ++ ".", "Audio descriptors:"]
      ++ descSegment d ++ ["Previous dialogue (most recent last):"],
     ["Respond with empathetic, emotionally supportive words, as if from a deeply attentive partner. (min 2 sentences)."],
     by simp [promptLines, List.append_assoc]⟩, ?_⟩
  intro hts
  rw [ctxSegment, if_neg]
  · rfl
  · simp [dialogueContext, hts]

/-- Witness for C7 at a concrete one-turn history. -/
theorem C7_witness :
    dialogueContext (some [DialogueTurn.mk "user" "hi"])
      = [DialogueTurn.mk "user" "hi"].map renderTurn
    ∧ ctxSegment (some [DialogueTurn.mk "user" "hi"])
      = [DialogueTurn.mk "user" "hi"].map renderTurn := by
  constructor
  · exact (C7_history "e" "c" none none [DialogueTurn.mk "user" "hi"]
      (DialogueTurn.mk "user" "hi")).1
  · exact (C7_history "e" "c" none none [DialogueTurn.mk "user" "hi"]
      (DialogueTurn.mk "user" "hi")).2.2.2.2.2.2.2 (by decide)

/-- C5: when `key_label` is a non-empty string, the rendered prompt
contains the `Detected key: <label>.` line exactly twice (the
unconditional interpolation plus the presence-gated line); when it is
absent, the line appears exactly once, rendering literally as
`Detected key: None.`.  The non-membership hypotheses pin down that the
counted occurrences come from the key-line slots and not from
caller-supplied text that happens to coincide with them. -/
theorem C5_key_line_twice (e c : String) (d : Option (List (String × String)))
    (hist : Option (List DialogueTurn)) (k : String) (hk : k ≠ "")
    (h1 : keyLine k ∉ nonKeyLines e d hist)
    (h2 : keyLine "None" ∉ nonKeyLines e d hist) :
    (promptLines e c (some k) d hist).count (keyLine k) = 2
    ∧ (promptLines e c none d hist).count (keyLine "None") = 1
    ∧ keyLine "None" = "Detected key: None."
    ∧ build_prompt e c (some k) d hist = joinSep "\n" (promptLines e c (some k) d hist)
    ∧ build_prompt e c none d hist = joinSep "\n" (promptLines e c none d hist) := by
  simp only [nonKeyLines, List.mem_append, List.mem_cons, List.not_mem_nil, not_or,
    not_false_eq_true, and_true, or_false] at h1 h2
  obtain ⟨⟨⟨⟨⟨a1, a2, a3, a4⟩, ad⟩, a6⟩, ac⟩, a7⟩ := h1
  obtain ⟨⟨⟨⟨⟨b1, b2, b3, b4⟩, bd⟩, b6⟩, bc⟩, b7⟩ := h2
  have hopt : optTruthy (some k) = true := by simp [optTruthy, hk]
  refine ⟨?_, ?_, rfl, build_prompt_eq_joinSep e c (some k) d hist,
    build_prompt_eq_joinSep e c none d hist⟩
  · simp only [promptLines, keySegment, hopt, if_true, pyShowOpt,
      List.cons_append, List.nil_append, List.append_assoc]
    simp [List.count_cons, List.count_append, beq_iff_eq, a1, a2, a3, a4, a6, a7,
      List.count_eq_zero.mpr ad, List.count_eq_zero.mpr ac]
  · simp only [promptLines, keySegment, optTruthy, if_false, pyShowOpt,
      List.cons_append, List.nil_append, List.append_assoc]
    simp [List.count_cons, List.count_append, beq_iff_eq, b1, b2, b3, b4, b6, b7,
      List.count_eq_zero.mpr bd, List.count_eq_zero.mpr bc]

/-- Witness for C5 at a concrete non-empty key label. -/
theorem C5_witness :
    ("C major" : String) ≠ ""
    ∧ (promptLines "happy" "C" (some "C major") none none).count (keyLine "C major") = 2
    ∧ (promptLines "happy" "C" none none none).count (keyLine "None") = 1 := by
  have h := C5_key_line_twice "happy" "C" none none "C major" (by decide) (by decide) (by decide)
  exact ⟨by decide, h.1, h.2.1⟩
